import Mathlib

/-!
Shallow embedding of the request pipeline in `src/utils/ApiCaller.ts`
(coriolis-web). The module-level helpers (`addCancelable`, `isOnLoginPage`,
`redirect`, `truncateUrl`) and the `ApiCaller` methods (`cancelRequests`,
`send`) are translated to pure Lean functions. Stateful interaction with the
browser and its transport is made explicit:

* the cancelable buffer (`let cancelables: Cancelable[]`) is passed as a
  `List Cancelable`, newest entry first (JS `unshift` = cons, `pop` =
  `dropLast`);
* `window.location` is a `Location` record; `window.location.href = u`
  assignments become a `navigatedTo : Option String` field of the outcome;
* `cacher.load` is abstracted as an `Option JSValue` argument (the Cacher
  module itself is outside the translated file; only the value `send`
  observes matters here), and `cacher.save` becomes a `cachedWrite` field;
* the single settlement of the axios call is an explicit `NetworkResult`
  argument distinguishing the four shapes the `catch` handler discriminates
  (`error.response` present / only `error.request` present /
  `error.constructor.name === 'Cancel'` / other setup errors);
* `logger.log` and `notificationStore.alert` calls are accumulated in
  `logs` / `alerts` lists, in program order;
* JavaScript truthiness (`if (cachedData)`, `if (options.cancelId)`,
  `a || b` on strings) is modelled by explicit truthiness functions on a
  small JS value type, since `options.data`, cached payloads and the
  `cancelId` string are arbitrary JS values there.

JS numbers that occur here are HTTP status codes and lengths, so `Nat`
suffices; `String.take`/`String.length` coincide with JS `substr`/`length`
on the ASCII strings involved.
-/

namespace Coriolis

/-- A JavaScript value as far as this pipeline inspects one: enough to
decide truthiness (`null`, booleans, numbers, strings, other objects).
Payloads cached and returned by the pipeline are values of this type. -/
inductive JSValue where
  | null
  | bool (b : Bool)
  | num (n : Int)
  | str (s : String)
  | obj
  deriving DecidableEq, Repr

/-- JavaScript truthiness of a `JSValue` (`null`, `false`, `0` and `""` are
falsy; any other object is truthy). -/
def truthy : JSValue → Bool
  | .null => false
  | .bool b => b
  | .num n => n != 0
  | .str s => s != ""
  | .obj => true

/-- Truthiness of a possibly-absent JS value (`undefined`/`null` are falsy). -/
def jsOptTruthy : Option JSValue → Bool
  | none => false
  | some v => truthy v

/-- `type Cancelable = { requestId: string, cancel: () => void }`. The
opaque cancel callback is identified by a `Nat` handle id; invoking it is
recorded by listing the handle id. -/
structure Cancelable where
  requestId : String
  cancel : Nat
  deriving DecidableEq, Repr

/-- `addCancelable`: `cancelables.unshift(cancelable)` then
`if (cancelables.length > 100) cancelables.pop()`. The list is newest-first,
so `unshift` is cons and `pop` drops the last (oldest) element. -/
def addCancelable (cancelable : Cancelable) (cancelables : List Cancelable) :
    List Cancelable :=
  let l := cancelable :: cancelables
  if l.length > 100 then l.dropLast else l

/-- Folding `addCancelable` over a sequence of registrations, starting from
the empty buffer (the module initialises `cancelables = []`). -/
def registerAll (ops : List Cancelable) : List Cancelable :=
  ops.foldl (fun s c => addCancelable c s) []

/-- `cancelRequests(cancelRequestId)`: invokes `c.cancel()` for every
buffered cancelable whose `requestId` matches, then reassigns the buffer to
the non-matching entries. Returns (handles invoked, in order; new buffer). -/
def cancelRequests (cancelRequestId : String) (cancelables : List Cancelable) :
    List Nat × List Cancelable :=
  let filteredCancelables := cancelables.filter
    (fun r => r.requestId == cancelRequestId)
  (filteredCancelables.map (fun c => c.cancel),
   cancelables.filter (fun r => r.requestId != cancelRequestId))

/-- One operation on the cancelable buffer, for stating which operations
invoke cancel handles. -/
inductive BufferOp where
  | register (c : Cancelable)
  | cancelGroup (tag : String)

/-- Effect of one buffer operation: the new buffer and the handle ids whose
cancel callbacks the operation invoked. `addCancelable`'s body performs only
`unshift`/`pop` and calls no cancel callback, so a registration invokes
nothing; `cancelRequests` invokes every matching handle. -/
def stepOp : BufferOp → List Cancelable → List Cancelable × List Nat
  | .register c, s => (addCancelable c s, [])
  | .cancelGroup tag, s => ((cancelRequests tag s).2, (cancelRequests tag s).1)

/-- `window.location`, as read by `isOnLoginPage` and `redirect`. -/
structure Location where
  pathname : String
  search : String
  deriving DecidableEq, Repr

/-- Does `pat` occur at the head of `cs`? -/
def startsWithChars : List Char → List Char → Bool
  | [], _ => true
  | _ :: _, [] => false
  | p :: ps, c :: cs => p == c && startsWithChars ps cs

/-- Does `pat` occur anywhere in `cs`? -/
def occursIn (pat : List Char) : List Char → Bool
  | [] => startsWithChars pat []
  | c :: cs => startsWithChars pat (c :: cs) || occursIn pat cs

/-- JS `s.indexOf(pat) > -1`: substring occurrence. -/
def strContains (s pat : String) : Bool :=
  occursIn pat.data s.data

/-- `isOnLoginPage`: `window.location.pathname.indexOf('login') > -1`. -/
def isOnLoginPage (loc : Location) : Bool :=
  strContains loc.pathname "login"

/-- `redirect(statusCode)`: returns the `window.location.href` assigned, or
`none` when the function returns without navigating. -/
def redirect (statusCode : Nat) (loc : Location) : Option String :=
  if statusCode != 401 || isOnLoginPage loc then none
  else
    let currentPath :=
      if loc.pathname != "/" then "?prev=" ++ loc.pathname ++ loc.search
      else "?prev=/"
    some ("/login" ++ currentPath)

/-- Matcher for the scheme part of `/http(s)?:\/\/.*?\//` at the head of a
character list: JS backtracking tries the greedy `(s)?` first, so `https://`
is preferred over `http://`. Returns the characters after the scheme. -/
def matchScheme : List Char → Option (List Char)
  | 'h' :: 't' :: 't' :: 'p' :: 's' :: ':' :: '/' :: '/' :: rest => some rest
  | 'h' :: 't' :: 't' :: 'p' :: ':' :: '/' :: '/' :: rest => some rest
  | _ => none

/-- The lazy `.*?\/` tail of the regex: consume the fewest characters (none
of which may be a newline, which `.` does not match) up to and including the
next `/`. Returns the characters after that `/`. -/
def lazyUpToSlash : List Char → Option (List Char)
  | [] => none
  | c :: cs =>
    if c = '/' then some cs
    else if c = '\n' then none
    else lazyUpToSlash cs

/-- One full match of `/http(s)?:\/\/.*?\//` starting exactly here. -/
def matchSchemeHost (cs : List Char) : Option (List Char) :=
  (matchScheme cs).bind lazyUpToSlash

/-- `url.replace(/http(s)?:\/\/.*?\//, '/')` on a character list: replace
the leftmost match (if any) by `/`, leave the rest untouched. -/
def replaceSchemeHost : List Char → List Char
  | [] => []
  | c :: cs =>
    match matchSchemeHost (c :: cs) with
    | some rest => '/' :: rest
    | none => c :: replaceSchemeHost cs

/-- The path-only portion computed by `truncateUrl`'s `url.replace(...)`. -/
def stripScheme (url : String) : String :=
  String.mk (replaceSchemeHost url.data)

/-- `truncateUrl`: strip scheme/host, double the string
(`relativePath += relativePath`), hard-truncate to 100 characters with a
trailing `...` when longer. -/
def truncateUrl (url : String) : String :=
  let relativePath := stripScheme url
  let doubled := relativePath ++ relativePath
  if doubled.length > 100 then doubled.take 100 ++ "..." else doubled

/-- The recognized `send` options (`RequestOptions`). `method`,
`responseType` default inside `send` via `||`; `quietError`/`skipLog`/
`cache` are nullable booleans, used only under `!`/`?:`, so `Bool` with
absent-as-`false` is exact; `cancelId` is checked for truthiness, so an
empty string behaves like an absent one. -/
structure RequestOptions where
  url : String
  method : Option String := none
  cancelId : Option String := none
  headers : List (String × String) := []
  data : Option JSValue := none
  responseType : Option String := none
  quietError : Bool := false
  skipLog : Bool := false
  cache : Bool := false
  cacheFor : Option Nat := none
  deriving DecidableEq, Repr

/-- `logger.log` entry type field. -/
inductive LogType where
  | REQUEST
  | RESPONSE
  deriving DecidableEq, Repr

/-- The `requestStatus` values the pipeline logs: a number (`200`, the
error status, or the sentinel `500`) or the string `'canceled'`. -/
inductive LogStatus where
  | num (n : Nat)
  | canceled
  deriving DecidableEq, Repr

/-- One `logger.log({...})` record as built by `send`. `hasRequestError`
records whether a `requestError: error` field was passed. -/
structure LogEntry where
  url : String
  method : String
  type : LogType
  requestStatus : Option LogStatus := none
  description : Option String := none
  hasRequestError : Bool := false
  deriving DecidableEq, Repr

/-- One `notificationStore.alert(message, 'error', {action})` call; the
`View details` callback closes over request/error data and is not invoked
by this pipeline, so only the user-facing message and level are recorded. -/
structure Alert where
  message : String
  level : String
  deriving DecidableEq, Repr

/-- The `error.response.data` body as far as the handler inspects it:
`data && data.error && data.error.message` and `data && data.description`
(each string read through JS truthiness, so an empty string falls through). -/
inductive ErrorData where
  | absent
  | payload (errMessage : Option String) (description : Option String)
  deriving DecidableEq, Repr

/-- Truthiness of a possibly-absent JS string. -/
def strTruthy : Option String → Bool
  | none => false
  | some s => s != ""

/-- The settlement of the `axios(axiosOptions)` promise, mirroring the
discrimination in the `catch` handler: a non-2xx response (with its
`error.request.responseURL`), a request with no response, a cancellation
(`error.constructor.name === 'Cancel'`), or a setup failure. -/
inductive NetworkResult where
  | success (data : JSValue) (status : Nat) (statusText : String)
      (headers : List (String × String))
  | errResponse (status : Nat) (statusText : String) (data : ErrorData)
      (responseURL : String)
  | errNoRes
  | errCancel
  | errSetup
  deriving DecidableEq, Repr

/-- A value resolved by `send`. On the cache-hit path the code builds the
object literal `{ data: cachedData }`, so every other field is absent; on
the network path the axios response (data, status, statusText, headers) is
resolved unchanged. -/
structure Response where
  data : JSValue
  status : Option Nat := none
  statusText : Option String := none
  headers : Option (List (String × String)) := none
  deriving DecidableEq, Repr

/-- A value the promise is rejected with: `reject(error.response)`,
`reject({})`, or `reject({ canceled })`. -/
inductive RejectValue where
  | response (status : Nat) (statusText : String) (data : ErrorData)
  | emptyObj
  | canceledFlag (canceled : Bool)
  deriving DecidableEq, Repr

/-- Everything observable about one `send` call: how the promise settled
and the effects it performed, in program order. -/
structure SendOutcome where
  resolved : Option Response := none
  rejected : Option RejectValue := none
  networkCalled : Bool := false
  registered : List Cancelable := []
  logs : List LogEntry := []
  alerts : List Alert := []
  navigatedTo : Option String := none
  cachedWrite : Option (String × JSValue) := none
  deriving DecidableEq, Repr

/-- The alert message of the server-error branch:
`message || statusText-or-status + ' ' + truncateUrl(url)`, with `message`
being `(data && data.error && data.error.message) || (data && data.description)`. -/
def serverErrorMessage (dat : ErrorData) (status : Nat) (statusText : String)
    (url : String) : String :=
  let fallback :=
    (if statusText != "" then statusText else toString status)
      ++ " " ++ truncateUrl url
  match dat with
  | .absent => fallback
  | .payload errMessage description =>
    if strTruthy errMessage then errMessage.getD ""
    else if strTruthy description then description.getD ""
    else fallback

/-- The connection-problem alert message shared by the no-response and
setup-failure branches. -/
def connectionAlertMessage (url : String) : String :=
  "Request failed, there might be a problem with the connection to the server. "
    ++ truncateUrl url

/-- The body of the `new Promise` in `send`: build `axiosOptions`, register
a cancelable when `options.cancelId` is truthy (the transport-supplied
cancel callback is the `handle` argument), log the REQUEST unless
`options.skipLog`, dispatch, and handle the settlement `net`. -/
def sendNetwork (options : RequestOptions) (loc : Location) (handle : Nat)
    (net : NetworkResult) : SendOutcome :=
  let method := options.method.getD "GET"
  let registered : List Cancelable :=
    match options.cancelId with
    | some cid => if cid != "" then [⟨cid, handle⟩] else []
    | none => []
  let reqLogs : List LogEntry :=
    if !options.skipLog then
      [{ url := options.url, method := method, type := .REQUEST }]
    else []
  match net with
  | .success d st stx hdrs =>
    { resolved := some { data := d, status := some st, statusText := some stx,
                         headers := some hdrs }
      networkCalled := true
      registered := registered
      logs := reqLogs ++
        (if !options.skipLog then
          [{ url := options.url, method := method, type := .RESPONSE,
             requestStatus := some (.num 200) }]
         else [])
      cachedWrite := if options.cache then some (options.url, d) else none }
  | .errResponse st stx dat respURL =>
    { rejected := some (.response st stx dat)
      networkCalled := true
      registered := registered
      logs := reqLogs ++
        [{ url := options.url, method := method, type := .RESPONSE,
           requestStatus := some (.num st), hasRequestError := true }]
      alerts :=
        if (st != 401 || !isOnLoginPage loc) && !options.quietError then
          [{ message := serverErrorMessage dat st stx options.url,
             level := "error" }]
        else []
      navigatedTo :=
        if !strContains respURL "/proxy/" && !strContains respURL "/azure-login"
        then redirect st loc
        else none }
  | .errNoRes =>
    { rejected := some .emptyObj
      networkCalled := true
      registered := registered
      logs := reqLogs ++
        [{ url := options.url, method := method, type := .RESPONSE,
           requestStatus := some (.num 500), description := some "No response",
           hasRequestError := true }]
      alerts :=
        if !isOnLoginPage loc && !options.quietError then
          [{ message := connectionAlertMessage options.url, level := "error" }]
        else [] }
  | .errCancel =>
    { rejected := some (.canceledFlag true)
      networkCalled := true
      registered := registered
      logs := reqLogs ++
        [{ url := options.url, method := method, type := .RESPONSE,
           requestStatus := some .canceled }] }
  | .errSetup =>
    { rejected := some (.canceledFlag false)
      networkCalled := true
      registered := registered
      logs := reqLogs ++
        [{ url := options.url, method := method, type := .RESPONSE,
           requestStatus := some (.num 500),
           description := some "Something happened in setting up the request" }]
      alerts := [{ message := connectionAlertMessage options.url,
                   level := "error" }] }

/-- `send(options)`. `cacheLoad` is the value `cacher.load({ key:
options.url, maxAge: options.cacheFor })` would return (`none` = JS `null`);
the code only consults it when `options.cache` is truthy, and takes the
cache-hit fast path when the loaded value itself is truthy
(`if (cachedData)`), resolving `{ data: cachedData }` with no further
effects. Otherwise the network path `sendNetwork` runs. -/
def send (options : RequestOptions) (loc : Location)
    (cacheLoad : Option JSValue) (handle : Nat) (net : NetworkResult) :
    SendOutcome :=
  let cachedData : Option JSValue :=
    if options.cache then cacheLoad else none
  match cachedData with
  | some d =>
    if truthy d then { resolved := some { data := d } }
    else sendNetwork options loc handle net
  | none => sendNetwork options loc handle net

/-- Uppercase hexadecimal digit for `n < 16`. -/
def hexDigit (n : Nat) : Char :=
  if n < 10 then Char.ofNat (48 + n) else Char.ofNat (55 + n)

/-- Modelled from the spec: the source applies no URL-encoding when building
the `prev` query value (it interpolates `pathname` and `search` verbatim),
so the "URL-encoded as a plain query value" encoding the spec describes is
not in the repository. This is that encoding, stated from the spec's words:
RFC 3986 unreserved characters (letters, digits, `-` `_` `.` `~`) are kept,
every other character is percent-encoded as `%` plus two uppercase hex
digits of its code (the inputs considered are ASCII). -/
def encodeQueryValueSpec (s : String) : String :=
  String.mk (s.data.foldr
    (fun c acc =>
      if c.isAlphanum || c = '-' || c = '_' || c = '.' || c = '~' then c :: acc
      else '%' :: hexDigit (c.toNat / 16 % 16) :: hexDigit (c.toNat % 16) :: acc)
    [])

/-! ### Helper lemmas -/

/-- When the cache-hit guard fails (`cache` falsy or loaded value falsy),
`send` runs the network path. -/
theorem send_not_hit (options : RequestOptions) (loc : Location)
    (cacheLoad : Option JSValue) (handle : Nat) (net : NetworkResult)
    (h : jsOptTruthy (if options.cache then cacheLoad else none) = false) :
    send options loc cacheLoad handle net = sendNetwork options loc handle net := by
  unfold send
  cases hc : (if options.cache then cacheLoad else none) with
  | none => simp
  | some d =>
    rw [hc] at h
    simp only [jsOptTruthy] at h
    simp [h]

/-- When `cache` is truthy and the loaded value is truthy, `send` resolves
`{ data: cachedData }` and performs no other effect. -/
theorem send_cache_hit (options : RequestOptions) (loc : Location)
    (cacheLoad : Option JSValue) (handle : Nat) (net : NetworkResult)
    (v : JSValue) (hc : options.cache = true) (hl : cacheLoad = some v)
    (hv : truthy v = true) :
    send options loc cacheLoad handle net = { resolved := some { data := v } } := by
  subst hl
  unfold send
  simp [hc, hv]

/-- `addCancelable` on a buffer of fewer than 101 entries: evict the oldest
exactly when the buffer is full. -/
theorem addCancelable_of_le (c : Cancelable) (s : List Cancelable)
    (h : s.length ≤ 100) :
    addCancelable c s = if s.length = 100 then c :: s.dropLast else c :: s := by
  simp only [addCancelable]
  by_cases h100 : s.length = 100
  · rw [if_pos (show (c :: s).length > 100 by simp [h100]), if_pos h100,
      List.dropLast_eq_take, List.dropLast_eq_take, List.length_cons, h100]
    rw [show (100 : Nat) + 1 - 1 = 99 + 1 from rfl, List.take_succ_cons]
  · rw [if_neg (show ¬ (c :: s).length > 100 by
        simp only [List.length_cons]; omega),
      if_neg h100]

/-- `addCancelable` applied to the first 100 elements of any list keeps the
new element plus the first 99. -/
theorem addCancelable_take (x : Cancelable) (r : List Cancelable) :
    addCancelable x (r.take 100) = x :: r.take 99 := by
  by_cases h : r.length ≤ 99
  · have h100 : r.length ≤ 100 := by omega
    rw [List.take_of_length_le h100, List.take_of_length_le h]
    simp only [addCancelable]
    rw [if_neg (show ¬ (x :: r).length > 100 by
        simp only [List.length_cons]; omega)]
  · have hfull : (r.take 100).length = 100 := by
      rw [List.length_take]
      omega
    rw [addCancelable_of_le x (r.take 100) (le_of_eq hfull), if_pos hfull,
      List.dropLast_eq_take, hfull, List.take_take]
    norm_num

/-- The cancelable buffer built by any sequence of registrations holds the
100 most recent registrations, newest first. -/
theorem registerAll_eq_take (ops : List Cancelable) :
    registerAll ops = ops.reverse.take 100 := by
  induction ops using List.reverseRecOn with
  | nil => rfl
  | append_singleton l x ih =>
    unfold registerAll at ih ⊢
    rw [List.foldl_append, ih, List.foldl_cons, List.foldl_nil,
      addCancelable_take, List.reverse_append]
    simp [List.take_succ_cons]

/-! ### Claims -/

/-- C1, counterexample: the claim quantifies over every `send` call with
`cache: true` whose cache read returns a payload, but `if (cachedData)`
tests JS truthiness, so a cached falsy payload (here the empty string) does
NOT take the fast path: the network call is issued, a REQUEST log entry is
appended, and the cancelable is registered, contrary to the claim. -/
theorem C1_cex :
    (send { url := "/x", cancelId := some "g", cache := true } ⟨"/p", ""⟩
        (some (JSValue.str "")) 7 NetworkResult.errNoRes).networkCalled = true ∧
    (send { url := "/x", cancelId := some "g", cache := true } ⟨"/p", ""⟩
        (some (JSValue.str "")) 7 NetworkResult.errNoRes).registered =
      [{ requestId := "g", cancel := 7 }] ∧
    (send { url := "/x", cancelId := some "g", cache := true } ⟨"/p", ""⟩
        (some (JSValue.str "")) 7 NetworkResult.errNoRes).logs ≠ [] := by
  decide

/-- C1, amended: for every `send` call with `cache` set to `true` for which
the cache read for the request's url returns a fresh payload that is truthy
in the JavaScript sense (not `null`, `false`, `0` or `""`), `send` resolves
immediately with that cached payload as the response data, and on this path
no network call is issued, no REQUEST or RESPONSE log entry is appended,
and no cancelable is registered even if `cancelId` is present (the outcome
record equals the pure resolution, every effect field at its empty
default). -/
theorem C1_cache_hit (options : RequestOptions) (loc : Location)
    (cacheLoad : Option JSValue) (handle : Nat) (net : NetworkResult)
    (v : JSValue) (hc : options.cache = true) (hl : cacheLoad = some v)
    (hv : truthy v = true) :
    send options loc cacheLoad handle net =
      { resolved := some { data := v }
        rejected := none
        networkCalled := false
        registered := []
        logs := []
        alerts := []
        navigatedTo := none
        cachedWrite := none } :=
  send_cache_hit options loc cacheLoad handle net v hc hl hv

/-- C1 witness: a concrete cache hit with a truthy payload and a
`cancelId`. -/
theorem C1_cache_hit_witness :
    send { url := "/x", cancelId := some "g", cache := true } ⟨"/p", ""⟩
        (some (JSValue.str "payload")) 7 NetworkResult.errNoRes =
      { resolved := some { data := JSValue.str "payload" }
        rejected := none
        networkCalled := false
        registered := []
        logs := []
        alerts := []
        navigatedTo := none
        cachedWrite := none } :=
  C1_cache_hit _ _ _ _ _ _ rfl rfl (by decide)

/-- C2: the cancelable buffer never exceeds 100 entries. A registration on
a buffer within capacity conses the new cancelable at the newest end and,
exactly when the buffer already holds 100 entries, drops the single entry
at the oldest end; and registering any 101 cancelables sequentially from
the initial empty buffer leaves precisely the 100 most recently registered
entries (newest first). -/
theorem C2_buffer_capacity :
    (∀ (c : Cancelable) (s : List Cancelable), s.length ≤ 100 →
      (addCancelable c s).length ≤ 100 ∧
      addCancelable c s = if s.length = 100 then c :: s.dropLast else c :: s) ∧
    (∀ ops : List Cancelable, ops.length = 101 →
      registerAll ops = ops.reverse.take 100) := by
  constructor
  · intro c s h
    refine ⟨?_, addCancelable_of_le c s h⟩
    rw [addCancelable_of_le c s h]
    by_cases h100 : s.length = 100
    · rw [if_pos h100]
      simp only [List.length_cons, List.length_dropLast]
      omega
    · rw [if_neg h100]
      simp only [List.length_cons]
      omega
  · intro ops _
    exact registerAll_eq_take ops

/-- C2 witness: a registration within capacity, and the 101-registration
scenario at concrete cancelables (ids `0`–`100`). -/
theorem C2_buffer_capacity_witness :
    (addCancelable ⟨"a", 0⟩ []).length ≤ 100 ∧
    registerAll ((List.range 101).map fun n =>
        ({ requestId := toString n, cancel := n } : Cancelable)) =
      ((List.range 101).map fun n =>
        ({ requestId := toString n, cancel := n } : Cancelable)).reverse.take 100 :=
  ⟨(C2_buffer_capacity.1 ⟨"a", 0⟩ [] (by decide)).1,
   C2_buffer_capacity.2 _ (by simp)⟩

/-- Filtering for a tag after filtering it out yields nothing. -/
theorem filter_eq_of_filter_ne (tag : String) (s : List Cancelable) :
    (s.filter (fun r => r.requestId != tag)).filter
      (fun r => r.requestId == tag) = [] := by
  rw [List.filter_filter]
  have : ∀ x ∈ s, ((fun r : Cancelable => r.requestId == tag) x &&
      (fun r : Cancelable => r.requestId != tag) x) =
      (fun _ : Cancelable => false) x := by
    intro x _
    simp only [bne]
    cases x.requestId == tag <;> rfl
  rw [List.filter_congr this, List.filter_false]

/-- Filtering a tag out is idempotent. -/
theorem filter_ne_idem (tag : String) (s : List Cancelable) :
    (s.filter (fun r => r.requestId != tag)).filter
      (fun r => r.requestId != tag) =
    s.filter (fun r => r.requestId != tag) := by
  rw [List.filter_filter]
  exact List.filter_congr fun x _ => Bool.and_self _

/-- C3: `cancelRequests tag` invokes exactly the cancel handles of the
currently buffered cancelables whose tag matches, one invocation per entry
in buffer order (in particular each matching entry's handle is invoked);
the new buffer is exactly the non-matching entries, so entries with any
other tag are untouched; and a second call with the same tag on the
resulting buffer invokes no handle and leaves the buffer unchanged. -/
theorem C3_cancel_requests (tag : String) (s : List Cancelable) :
    (cancelRequests tag s).1 =
      (s.filter (fun r => r.requestId == tag)).map (fun c => c.cancel) ∧
    (∀ d ∈ s, d.requestId = tag → d.cancel ∈ (cancelRequests tag s).1) ∧
    (cancelRequests tag s).2 = s.filter (fun r => r.requestId != tag) ∧
    cancelRequests tag ((cancelRequests tag s).2) =
      ([], (cancelRequests tag s).2) := by
  refine ⟨rfl, ?_, rfl, ?_⟩
  · intro d hd htag
    simp only [cancelRequests, List.mem_map]
    exact ⟨d, List.mem_filter.mpr ⟨hd, by simp [htag]⟩, rfl⟩
  · simp only [cancelRequests]
    rw [filter_eq_of_filter_ne, filter_ne_idem]
    simp

/-- C10: a registration that overflows the full buffer evicts the oldest
entry without invoking any cancel handle (the register step's invoked-handle
list is empty); the evicted entry is gone from the buffer; and a subsequent
`cancelRequests` with the evicted entry's group tag no longer invokes that
entry's handle (provided no remaining entry shares the same handle), so the
underlying request proceeds unaffected by the eviction. -/
theorem C10_eviction_no_invoke (cNew : Cancelable) (s : List Cancelable)
    (h100 : s.length = 100) :
    (stepOp (.register cNew) s).2 = [] ∧
    (stepOp (.register cNew) s).1 = cNew :: s.dropLast ∧
    (∀ cOld : Cancelable, cOld ∈ s → cOld ∉ s.dropLast → cOld ≠ cNew →
      cOld ∉ (stepOp (.register cNew) s).1) ∧
    (∀ (cOld : Cancelable) (tag : String),
      (∀ d ∈ (stepOp (.register cNew) s).1, d.cancel ≠ cOld.cancel) →
      cOld.cancel ∉ (stepOp (.cancelGroup tag) ((stepOp (.register cNew) s).1)).2) := by
  have hbuf : (stepOp (.register cNew) s).1 = cNew :: s.dropLast := by
    simp only [stepOp]
    rw [addCancelable_of_le cNew s (le_of_eq h100), if_pos h100]
  refine ⟨rfl, hbuf, ?_, ?_⟩
  · intro cOld hmem hdrop hne
    rw [hbuf]
    intro hin
    rcases List.mem_cons.mp hin with h | h
    · exact hne h
    · exact hdrop h
  · intro cOld tag hnone
    simp only [stepOp, cancelRequests, List.mem_map]
    rintro ⟨d, hd, hcancel⟩
    exact hnone d (List.mem_filter.mp hd).1 hcancel

/-- C10 witness: a concrete full buffer (tags `0`–`99`, handle ids
`0`–`99`, oldest entry tag `99`); registering a new cancelable invokes
nothing, and cancelling group `99` afterwards does not invoke the evicted
handle `99`. -/
theorem C10_eviction_no_invoke_witness :
    (stepOp (.register ⟨"new", 1000⟩)
      ((List.range 100).map fun n =>
        ({ requestId := toString n, cancel := n } : Cancelable))).2 = [] ∧
    (⟨"99", 99⟩ : Cancelable).cancel ∉
      (stepOp (.cancelGroup "99")
        ((stepOp (.register ⟨"new", 1000⟩)
          ((List.range 100).map fun n =>
            ({ requestId := toString n, cancel := n } : Cancelable))).1)).2 := by
  have h := C10_eviction_no_invoke ⟨"new", 1000⟩
    ((List.range 100).map fun n =>
      ({ requestId := toString n, cancel := n } : Cancelable)) (by simp)
  exact ⟨h.1, h.2.2.2 ⟨"99", 99⟩ "99" (by decide)⟩

/-- C4, counterexample: two deviations from the claim at concrete inputs.
At current location path `/` with query `?a=1&b=2`, a failing 401 request
(URL matching neither `/proxy/` nor `/azure-login`) navigates to
`/login?prev=/` — the query string is dropped, so `prev` is not the current
path plus query string. At path `/x` with the same query, the navigation
target embeds the path and query verbatim, which differs from the
URL-encoding of that value as a plain query component that the claim
describes. -/
theorem C4_cex :
    (send { url := "/u" } ⟨"/", "?a=1&b=2"⟩ none 0
        (NetworkResult.errResponse 401 "Unauthorized" ErrorData.absent "/u")).navigatedTo
      = some "/login?prev=/" ∧
    "/login?prev=/" ≠ "/login?prev=" ++ "/" ++ "?a=1&b=2" ∧
    "/login?prev=/" ≠ "/login?prev=" ++ encodeQueryValueSpec ("/" ++ "?a=1&b=2") ∧
    (send { url := "/u" } ⟨"/x", "?a=1&b=2"⟩ none 0
        (NetworkResult.errResponse 401 "Unauthorized" ErrorData.absent "/u")).navigatedTo
      = some "/login?prev=/x?a=1&b=2" ∧
    "/login?prev=/x?a=1&b=2" ≠
      "/login?prev=" ++ encodeQueryValueSpec ("/x" ++ "?a=1&b=2") := by
  decide

/-- C4, amended: for every failing request whose response carries HTTP
status 401, when the current page is not a login page (pathname not
containing `login`) and the failing request's response URL contains neither
`/proxy/` nor `/azure-login`, the browser is navigated to `/login` with a
`prev` query parameter equal to the verbatim (not URL-encoded)
concatenation of the current path and query string — except that when the
current path is exactly `/` the `prev` value is `/` and the query string is
dropped; when the current page is a login page, or the status is not 401,
no navigation occurs. -/
theorem C4_redirect (options : RequestOptions) (loc : Location)
    (cacheLoad : Option JSValue) (handle : Nat) (st : Nat) (stx : String)
    (dat : ErrorData) (respURL : String)
    (hmiss : jsOptTruthy (if options.cache then cacheLoad else none) = false) :
    (st = 401 → isOnLoginPage loc = false →
      strContains respURL "/proxy/" = false →
      strContains respURL "/azure-login" = false →
      (send options loc cacheLoad handle
        (.errResponse st stx dat respURL)).navigatedTo =
      some ("/login" ++
        (if loc.pathname = "/" then "?prev=/"
         else "?prev=" ++ loc.pathname ++ loc.search))) ∧
    (isOnLoginPage loc = true →
      (send options loc cacheLoad handle
        (.errResponse st stx dat respURL)).navigatedTo = none) ∧
    (st ≠ 401 →
      (send options loc cacheLoad handle
        (.errResponse st stx dat respURL)).navigatedTo = none) := by
  rw [send_not_hit options loc cacheLoad handle _ hmiss]
  simp only [sendNetwork]
  refine ⟨?_, ?_, ?_⟩
  · intro h401 hlogin hproxy hazure
    subst h401
    simp only [hproxy, hazure, Bool.not_false, Bool.and_self, if_true, redirect,
      hlogin, Bool.or_false, bne_self_eq_false]
    by_cases hroot : loc.pathname = "/"
    · simp [hroot]
    · simp only [hroot, if_neg]
      have : (loc.pathname != "/") = true := by simp [hroot]
      simp [this]
  · intro hlogin
    simp only [redirect, hlogin, Bool.or_true, if_true]
    split <;> rfl
  · intro hne
    have : (st != 401) = true := by simp [hne]
    simp only [redirect, this, Bool.true_or, if_true]
    split <;> rfl

/-- C4 witness: a 401 failure at a non-login page with a non-root path
navigates to the raw concatenation. -/
theorem C4_redirect_witness :
    (send { url := "/u" } ⟨"/servers", "?page=2"⟩ none 0
        (NetworkResult.errResponse 401 "Unauthorized" ErrorData.absent "/u")).navigatedTo
      = some "/login?prev=/servers?page=2" := by
  have h := (C4_redirect { url := "/u" } ⟨"/servers", "?page=2"⟩ none 0 401
    "Unauthorized" ErrorData.absent "/u" (by decide)).1 rfl (by decide)
    (by decide) (by decide)
  simpa using h

/-- C5: on the network path, `quietError: true` suppresses the user-facing
notification in the ServerError (a response was received) and NoResponse
buckets while the promise rejects with exactly the same value as without
`quietError` (the error response, resp. the empty object); in the
SetupFailure bucket the notification is emitted regardless of `quietError`,
and the rejection value there is `{ canceled: false }`. -/
theorem C5_quiet_error (options : RequestOptions) (loc : Location)
    (cacheLoad : Option JSValue) (handle : Nat)
    (hmiss : jsOptTruthy (if options.cache then cacheLoad else none) = false) :
    (∀ (st : Nat) (stx : String) (dat : ErrorData) (respURL : String),
      (send { options with quietError := true } loc cacheLoad handle
        (.errResponse st stx dat respURL)).alerts = [] ∧
      (send { options with quietError := true } loc cacheLoad handle
        (.errResponse st stx dat respURL)).rejected =
      (send { options with quietError := false } loc cacheLoad handle
        (.errResponse st stx dat respURL)).rejected) ∧
    ((send { options with quietError := true } loc cacheLoad handle
        .errNoRes).alerts = [] ∧
      (send { options with quietError := true } loc cacheLoad handle
        .errNoRes).rejected =
      (send { options with quietError := false } loc cacheLoad handle
        .errNoRes).rejected) ∧
    (∀ q : Bool,
      (send { options with quietError := q } loc cacheLoad handle
        .errSetup).alerts =
        [{ message := connectionAlertMessage options.url, level := "error" }] ∧
      (send { options with quietError := q } loc cacheLoad handle
        .errSetup).rejected = some (.canceledFlag false)) := by
  have hq : ∀ (q : Bool) (net : NetworkResult),
      send { options with quietError := q } loc cacheLoad handle net =
        sendNetwork { options with quietError := q } loc handle net := by
    intro q net
    exact send_not_hit _ loc cacheLoad handle net hmiss
  refine ⟨?_, ?_, ?_⟩
  · intro st stx dat respURL
    rw [hq, hq]
    simp [sendNetwork]
  · rw [hq, hq]
    simp [sendNetwork]
  · intro q
    rw [hq]
    simp [sendNetwork]

/-- C5 witness: a concrete quiet 503 failure and a concrete setup
failure. -/
theorem C5_quiet_error_witness :
    (send { url := "/a", quietError := true } ⟨"/p", ""⟩ none 0
      (.errResponse 503 "Service Unavailable" ErrorData.absent "/a")).alerts = [] ∧
    (send { url := "/a", quietError := true } ⟨"/p", ""⟩ none 0
      .errSetup).rejected = some (.canceledFlag false) := by
  have h := C5_quiet_error { url := "/a" } ⟨"/p", ""⟩ none 0 (by decide)
  exact ⟨(h.1 503 "Service Unavailable" ErrorData.absent "/a").1,
    (h.2.2 true).2⟩

/-- C6: on the network path, a failure classified as a cancellation
(`error.constructor.name === 'Cancel'`) rejects the promise with
`{ canceled: true }`, appends a RESPONSE log entry whose status is the
string `"canceled"`, and emits no user-facing alert. -/
theorem C6_cancelled (options : RequestOptions) (loc : Location)
    (cacheLoad : Option JSValue) (handle : Nat)
    (hmiss : jsOptTruthy (if options.cache then cacheLoad else none) = false) :
    (send options loc cacheLoad handle .errCancel).rejected =
      some (.canceledFlag true) ∧
    ({ url := options.url, method := options.method.getD "GET",
       type := .RESPONSE, requestStatus := some .canceled } : LogEntry) ∈
      (send options loc cacheLoad handle .errCancel).logs ∧
    (send options loc cacheLoad handle .errCancel).alerts = [] := by
  rw [send_not_hit options loc cacheLoad handle _ hmiss]
  refine ⟨rfl, ?_, rfl⟩
  simp [sendNetwork]

/-- C6 witness: the §8 scenario `send({ url: '/y', cancelId: 'grp1' })`
cancelled before settling. -/
theorem C6_cancelled_witness :
    (send { url := "/y", cancelId := some "grp1" } ⟨"/p", ""⟩ none 3
      .errCancel).rejected = some (.canceledFlag true) ∧
    ({ url := "/y", method := "GET", type := .RESPONSE,
       requestStatus := some .canceled } : LogEntry) ∈
      (send { url := "/y", cancelId := some "grp1" } ⟨"/p", ""⟩ none 3
        .errCancel).logs ∧
    (send { url := "/y", cancelId := some "grp1" } ⟨"/p", ""⟩ none 3
      .errCancel).alerts = [] :=
  C6_cancelled { url := "/y", cancelId := some "grp1" } ⟨"/p", ""⟩ none 3
    (by decide)

/-- C7: the login-redirect check never fires from the NoResponse, Cancelled
or SetupFailure buckets (nor from a success or a cache hit): whenever a
`send` call navigates the browser, the transport settlement was a received
HTTP response and its status was 401. -/
theorem C7_redirect_only_on_response (options : RequestOptions)
    (loc : Location) (cacheLoad : Option JSValue) (handle : Nat)
    (net : NetworkResult)
    (h : (send options loc cacheLoad handle net).navigatedTo ≠ none) :
    ∃ (stx : String) (dat : ErrorData) (respURL : String),
      net = .errResponse 401 stx dat respURL := by
  have key : (sendNetwork options loc handle net).navigatedTo ≠ none →
      ∃ (stx : String) (dat : ErrorData) (respURL : String),
        net = .errResponse 401 stx dat respURL := by
    intro hsn
    cases net with
    | errResponse st stx dat respURL =>
      refine ⟨stx, dat, respURL, ?_⟩
      by_cases hst : st = 401
      · rw [hst]
      · exfalso
        apply hsn
        have hbne : (st != 401) = true := by simp [hst]
        simp only [sendNetwork]
        split
        · simp [redirect, hbne]
        · rfl
    | success d st stx hdrs => exact absurd rfl hsn
    | errNoRes => exact absurd rfl hsn
    | errCancel => exact absurd rfl hsn
    | errSetup => exact absurd rfl hsn
  cases hmiss : jsOptTruthy (if options.cache then cacheLoad else none) with
  | false =>
    rw [send_not_hit options loc cacheLoad handle net hmiss] at h
    exact key h
  | true =>
    exfalso
    rcases hx : (if options.cache then cacheLoad else none) with _ | d <;>
      rw [hx] at hmiss
    · exact Bool.false_ne_true hmiss
    · have hd : truthy d = true := hmiss
      have hcache : options.cache = true := by
        by_cases hcf : options.cache = true
        · exact hcf
        · rw [if_neg hcf] at hx
          exact absurd hx (Option.noConfusion)
      rw [if_pos hcache] at hx
      rw [send_cache_hit options loc cacheLoad handle net d hcache hx hd] at h
      exact h rfl

/-- C7 witness: a concrete navigating call is indeed a 401 response
failure. -/
theorem C7_redirect_only_on_response_witness :
    ∃ (stx : String) (dat : ErrorData) (respURL : String),
      (NetworkResult.errResponse 401 "Unauthorized" ErrorData.absent "/w") =
        .errResponse 401 stx dat respURL :=
  C7_redirect_only_on_response { url := "/w" } ⟨"/q", ""⟩ none 0
    (.errResponse 401 "Unauthorized" ErrorData.absent "/w") (by decide)

/-- C8, counterexample: for URL `https://host/api/migrations/abc` the
path-only portion is `/api/migrations/abc`, whose length is 19 (not 20 as
the claim states), and the doubled string returned has length 38 (not
40). -/
theorem C8_cex :
    (stripScheme "https://host/api/migrations/abc").length = 19 ∧
    ¬ (stripScheme "https://host/api/migrations/abc").length = 20 ∧
    (truncateUrl "https://host/api/migrations/abc").length = 38 ∧
    ¬ (truncateUrl "https://host/api/migrations/abc").length = 40 := by
  decide

/-- C8, amended: the truncated-url helper first strips the scheme and host
(the leftmost `http(s)://.../` match is replaced by `/`) to obtain the
path-only portion, then doubles that string by concatenating it with
itself, and hard-truncates to 100 characters with a trailing ellipsis only
when the doubled string exceeds 100 characters; for URL
`https://host/api/migrations/abc` (path `/api/migrations/abc` of length 19,
doubled to 38) the doubled string is returned unmodified with no
ellipsis. -/
theorem C8_truncate_url :
    (∀ url : String,
      truncateUrl url =
        if (stripScheme url ++ stripScheme url).length > 100
        then (stripScheme url ++ stripScheme url).take 100 ++ "..."
        else stripScheme url ++ stripScheme url) ∧
    stripScheme "https://host/api/migrations/abc" = "/api/migrations/abc" ∧
    (stripScheme "https://host/api/migrations/abc").length = 19 ∧
    truncateUrl "https://host/api/migrations/abc" =
      "/api/migrations/abc/api/migrations/abc" ∧
    (truncateUrl "https://host/api/migrations/abc").length = 38 :=
  ⟨fun _ => rfl, by decide, by decide, by decide, by decide⟩

/-- C9: every `send` call served from the cache resolves with an object
whose only populated field is `data` (holding the cached payload) — its
`status`, `statusText` and `headers` fields are all absent — whereas any
value resolved on the network path carries populated `status`,
`statusText` and `headers`, so the cache-hit value is structurally
different from every network-path resolution. -/
theorem C9_cache_response_shape (options : RequestOptions) (loc : Location)
    (cacheLoad : Option JSValue) (handle : Nat) (net : NetworkResult)
    (v : JSValue) (hc : options.cache = true) (hl : cacheLoad = some v)
    (hv : truthy v = true) :
    (send options loc cacheLoad handle net).resolved =
      some { data := v, status := none, statusText := none, headers := none } ∧
    (∀ (options2 : RequestOptions) (loc2 : Location)
       (cacheLoad2 : Option JSValue) (handle2 : Nat) (d : JSValue) (st : Nat)
       (stx : String) (hdrs : List (String × String)),
      jsOptTruthy (if options2.cache then cacheLoad2 else none) = false →
      (send options2 loc2 cacheLoad2 handle2
        (.success d st stx hdrs)).resolved =
        some { data := d, status := some st, statusText := some stx,
               headers := some hdrs }) ∧
    (∀ (d : JSValue) (st : Nat) (stx : String)
       (hdrs : List (String × String)),
      ({ data := v } : Response) ≠
        { data := d, status := some st, statusText := some stx,
          headers := some hdrs }) := by
  refine ⟨?_, ?_, ?_⟩
  · rw [send_cache_hit options loc cacheLoad handle net v hc hl hv]
  · intro options2 loc2 cacheLoad2 handle2 d st stx hdrs hmiss
    rw [send_not_hit options2 loc2 cacheLoad2 handle2 _ hmiss]
    rfl
  · intro d st stx hdrs hcontra
    exact Option.noConfusion (congrArg Response.status hcontra)

/-- C9 witness: a concrete cache hit next to a concrete network success. -/
theorem C9_cache_response_shape_witness :
    (send { url := "/z", cache := true } ⟨"/p", ""⟩
      (some (JSValue.num 5)) 0 (.success JSValue.obj 200 "OK" [])).resolved =
      some { data := JSValue.num 5, status := none, statusText := none,
             headers := none } ∧
    (send { url := "/z" } ⟨"/p", ""⟩ none 0
      (.success JSValue.obj 200 "OK" [])).resolved =
      some { data := JSValue.obj, status := some 200, statusText := some "OK",
             headers := some [] } := by
  have h := C9_cache_response_shape { url := "/z", cache := true } ⟨"/p", ""⟩
    (some (JSValue.num 5)) 0 (.success JSValue.obj 200 "OK" [])
    (JSValue.num 5) rfl rfl (by decide)
  exact ⟨h.1, h.2.1 { url := "/z" } ⟨"/p", ""⟩ none 0 JSValue.obj 200 "OK" []
    (by decide)⟩

end Coriolis
